import Mathlib

/-!
Verification of the Terma terminal-server core against its specification.

The Python source is shallowly embedded: each Python method that a claim
refers to becomes a pure Lean function over an explicit state record.
OS-level effects (PTY spawning, ioctl, wall-clock time) are made explicit
parameters; exceptions raised by the environment (kernel errors while
terminating a child, socket failures) are outside the model.

Embedded modules:
  * `terma/core/terminal.py`      — `TerminalSession`
  * `terma/core/session_manager.py` — `SessionManager`
  * `terma/core/llm_adapter.py`   — `LLMAdapter` conversation context
  * `terma/api/websocket.py`      — `TerminalWebSocketHandler`
-/

namespace Terma

/-- State of the PTY behind a `TerminalSession` (`ptyprocess.PtyProcess`).
`winRows`/`winCols` is the kernel window size set via `setwinsize`
(`TIOCSWINSZ`); `alive` mirrors `isalive()`. -/
structure PtyState where
  winRows : Int
  winCols : Int
  alive : Bool
deriving DecidableEq, Repr

/-- Shallow embedding of `terma.core.terminal.TerminalSession.__dict__`:
`session_id`, `shell_command`, `active`, `pty` (None before `start`),
`created_at`, `last_activity` (modelled as discrete timestamps), and
`output_callbacks` (callback objects modelled by numeric identities,
since Python removal compares object identity). -/
structure TerminalSession where
  sessionId : String
  shellCommand : String
  active : Bool
  pty : Option PtyState
  createdAt : Nat
  lastActivity : Nat
  outputCallbacks : List Nat
deriving DecidableEq, Repr

/-- Outcome of the environment when `start` tries to spawn the child:
either a live PTY is allocated or spawning fails (missing executable,
PTY allocation failure, invalid file descriptor — all the `return False`
paths of `TerminalSession.start`). -/
inductive SpawnOutcome where
  | ok (p : PtyState)
  | fail
deriving DecidableEq, Repr

/-- `TerminalSession.__init__`: `shell_command or default` (Python
falsiness: `None` and `""` both fall back to the default shell). -/
def TerminalSession.init (sessionId : String) (shellCommand : Option String)
    (defaultShell : String) (now : Nat) : TerminalSession :=
  { sessionId := sessionId
    shellCommand :=
      match shellCommand with
      | none => defaultShell
      | some s => if s = "" then defaultShell else s
    active := false
    pty := none
    createdAt := now
    lastActivity := now
    outputCallbacks := [] }

/-- `TerminalSession.start`: if already active it logs a warning and
returns `True` immediately, touching nothing.  Otherwise the spawn is
attempted (third component `true`): on success `active` is set and the
PTY stored; on any failure path the method returns `False`.
Result: (new state, return value, whether a spawn was attempted). -/
def TerminalSession.start (s : TerminalSession) (env : SpawnOutcome) :
    TerminalSession × Bool × Bool :=
  if s.active then (s, true, false)
  else
    match env with
    | .ok p => ({ s with active := true, pty := some p }, true, true)
    | .fail => (s, false, true)

/-- `TerminalSession.stop`: already-inactive returns `True`; otherwise the
read task is cancelled, the child terminated if alive, and `active` is
cleared.  Environment exceptions while terminating are outside the model,
so the embedded `stop` always succeeds. -/
def TerminalSession.stop (s : TerminalSession) : TerminalSession × Bool :=
  if s.active then
    ({ s with active := false
              pty := s.pty.map (fun p => { p with alive := false }) }, true)
  else (s, true)

/-- `TerminalSession.write`: `if not self.active or not self.pty: return
False`; otherwise `last_activity` is updated and the data forwarded to the
PTY master. -/
def TerminalSession.write (s : TerminalSession) (_data : String) (now : Nat) :
    TerminalSession × Bool :=
  if s.active = false then (s, false)
  else
    match s.pty with
    | none => (s, false)
    | some _ => ({ s with lastActivity := now }, true)

/-- Predicate for values accepted by `ptyprocess.PtyProcess.setwinsize`,
which packs rows and cols with `struct.pack` format `HHHH` (unsigned
16-bit): values outside `[0, 65535]` raise `struct.error`. -/
def winsizeOk (v : Int) : Prop := 0 ≤ v ∧ v < 65536

instance : DecidablePred winsizeOk := fun v =>
  inferInstanceAs (Decidable (0 ≤ v ∧ v < 65536))

/-- `TerminalSession.resize`: `if not self.active or not self.pty: return
False`; otherwise `last_activity` is updated, then `self.pty.setwinsize
(rows, cols)` is called inside the `try`.  The source performs no range
validation of its own; `setwinsize` only rejects arguments that do not
pack as unsigned 16-bit, and that exception is caught and turned into
`return False` (the window size is then unchanged, `last_activity`
already updated). -/
def TerminalSession.resize (s : TerminalSession) (rows cols : Int) (now : Nat) :
    TerminalSession × Bool :=
  if s.active = false then (s, false)
  else
    match s.pty with
    | none => (s, false)
    | some p =>
      if winsizeOk rows ∧ winsizeOk cols then
        ({ s with lastActivity := now
                  pty := some { p with winRows := rows, winCols := cols } }, true)
      else ({ s with lastActivity := now }, false)

/-- `TerminalSession.register_output_callback`: unconditional append. -/
def TerminalSession.registerOutputCallback (s : TerminalSession) (cb : Nat) :
    TerminalSession :=
  { s with outputCallbacks := s.outputCallbacks ++ [cb] }

/-- `TerminalSession.unregister_output_callback`: `if callback in
self.output_callbacks: self.output_callbacks.remove(callback)` — removal
of the first occurrence, only if present. -/
def TerminalSession.unregisterOutputCallback (s : TerminalSession) (cb : Nat) :
    TerminalSession :=
  if cb ∈ s.outputCallbacks then
    { s with outputCallbacks := s.outputCallbacks.erase cb }
  else s

/-- A concrete active session used as a test input. -/
def sampleActive : TerminalSession :=
  { sessionId := "s1"
    shellCommand := "/bin/bash"
    active := true
    pty := some { winRows := 24, winCols := 80, alive := true }
    createdAt := 0
    lastActivity := 0
    outputCallbacks := [] }

/-- A concrete inactive (closed) session used as a test input. -/
def sampleClosed : TerminalSession :=
  { sessionId := "s2"
    shellCommand := "/bin/bash"
    active := false
    pty := some { winRows := 24, winCols := 80, alive := false }
    createdAt := 0
    lastActivity := 3
    outputCallbacks := [] }

end Terma

namespace Terma

/-- C1 counterexample: the claim says `resize(2000, 2000)` must fail
(rows > 1000), but on an active session the source performs no range
check and returns `True`, setting the window to 2000×2000. -/
theorem resize_no_thousand_bound_counterexample :
    (TerminalSession.resize sampleActive 2000 2000 5).2 = true ∧
    (TerminalSession.resize sampleActive 2000 2000 5).1.pty =
      some { winRows := 2000, winCols := 2000, alive := true } := by
  constructor <;> rfl

/-- C1 (amended): `resize` on an active session with a PTY performs no
range validation of its own; it sets the window size and returns `true`
for every rows/cols pair representable as unsigned 16-bit (the only
values `setwinsize` accepts), and returns `false` leaving the window
size unchanged (only `last_activity` updated) when either value falls
outside `[0, 65535]`. -/
theorem resize_amended (s : TerminalSession) (p : PtyState) (rows cols : Int)
    (now : Nat) (ha : s.active = true) (hp : s.pty = some p) :
    TerminalSession.resize s rows cols now =
      if winsizeOk rows ∧ winsizeOk cols then
        ({ s with lastActivity := now
                  pty := some { p with winRows := rows, winCols := cols } }, true)
      else ({ s with lastActivity := now }, false) := by
  unfold TerminalSession.resize
  rw [ha, hp]
  simp

/-- Expected state of `sampleActive` after a successful 40×132 resize at
time 9. -/
def sampleResized : TerminalSession :=
  { sampleActive with lastActivity := 9
                      pty := some { winRows := 40, winCols := 132, alive := true } }

/-- C1 witness: the amended theorem applied to a concrete active session
at rows = 40, cols = 132 (both in range, hence success). -/
theorem resize_amended_witness :
    sampleActive.active = true ∧
    sampleActive.pty = some { winRows := 24, winCols := 80, alive := true } ∧
    TerminalSession.resize sampleActive 40 132 9 =
      if winsizeOk 40 ∧ winsizeOk 132 then (sampleResized, true)
      else ({ sampleActive with lastActivity := 9 }, false) :=
  ⟨rfl, rfl, resize_amended sampleActive
    { winRows := 24, winCols := 80, alive := true } 40 132 9 rfl rfl⟩

/-- C8: on a session with `active = false` (closed, never started, or
ended by EOF), `write` and `resize` both return `false` and leave the
session — in particular the PTY — completely untouched. -/
theorem inactive_write_resize_fail (s : TerminalSession) (d : String)
    (rows cols : Int) (now : Nat) (h : s.active = false) :
    TerminalSession.write s d now = (s, false) ∧
    TerminalSession.resize s rows cols now = (s, false) := by
  constructor
  · unfold TerminalSession.write
    rw [h]
    simp
  · unfold TerminalSession.resize
    rw [h]
    simp

/-- C8 witness: the theorem applied to a concrete closed session. -/
theorem inactive_write_resize_fail_witness :
    sampleClosed.active = false ∧
    TerminalSession.write sampleClosed "ls\n" 7 = (sampleClosed, false) ∧
    TerminalSession.resize sampleClosed 40 132 7 = (sampleClosed, false) :=
  ⟨rfl, (inactive_write_resize_fail sampleClosed "ls\n" 40 132 7 rfl).1,
        (inactive_write_resize_fail sampleClosed "ls\n" 40 132 7 rfl).2⟩

/-- C10: calling `start()` on an already-active session returns `true`
immediately: no spawn is attempted (third component `false`) and the
state — PTY, timestamps, callback list — is returned unchanged. -/
theorem start_on_active_noop (s : TerminalSession) (env : SpawnOutcome)
    (h : s.active = true) :
    TerminalSession.start s env = (s, true, false) := by
  unfold TerminalSession.start
  rw [h]
  simp

/-- C10 witness: the theorem applied to a concrete active session. -/
theorem start_on_active_noop_witness :
    sampleActive.active = true ∧
    TerminalSession.start sampleActive .fail = (sampleActive, true, false) :=
  ⟨rfl, start_on_active_noop sampleActive .fail rfl⟩

/-- Lookup in a Python dict modelled as an association list
(`self.sessions.get(session_id)`). -/
def lookupD (m : List (String × TerminalSession)) (k : String) :
    Option TerminalSession :=
  match m with
  | [] => none
  | (k', v) :: rest => if k' = k then some v else lookupD rest k

/-- `dict[k] = v`: replaces an existing binding, otherwise appends. -/
def insertD (m : List (String × TerminalSession)) (k : String)
    (v : TerminalSession) : List (String × TerminalSession) :=
  match m with
  | [] => [(k, v)]
  | (k', v') :: rest =>
    if k' = k then (k, v) :: rest else (k', v') :: insertD rest k v

/-- `del dict[k]` (under the at-most-one-binding invariant a filter is
exact). -/
def eraseD (m : List (String × TerminalSession)) (k : String) :
    List (String × TerminalSession) :=
  m.filter (fun p => p.1 ≠ k)

/-- Number of bindings an association list holds for a key. -/
def countKey (m : List (String × TerminalSession)) (k : String) : Nat :=
  (m.filter (fun p => p.1 = k)).length

/-- Shallow embedding of `terma.core.session_manager.SessionManager`:
the `sessions` dict, the `locks` dict (only the key set matters for the
claims), and the two timing parameters. -/
structure SessionManager where
  sessions : List (String × TerminalSession)
  locks : List String
  cleanupInterval : Nat
  idleTimeout : Nat
deriving DecidableEq, Repr

/-- `SessionManager.__init__` with default timing parameters. -/
def SessionManager.init : SessionManager :=
  { sessions := [], locks := [], cleanupInterval := 3600, idleTimeout := 86400 }

/-- The `if not session_id: session_id = str(uuid.uuid4())` step of
`create_session`: a falsy id (None or `""`) is replaced by a fresh UUID,
modelled by the `genId` parameter. -/
def resolveSid (sid? : Option String) (genId : String) : String :=
  match sid? with
  | none => genId
  | some s => if s = "" then genId else s

/-- `SessionManager.create_session` (the synchronous variant at
`session_manager.py:139`): a duplicate id short-circuits, returning the
id without constructing or starting anything; otherwise a
`TerminalSession` is built and `start()`ed — on success the session and
its lock are stored, on failure nothing is inserted and `None` is
returned.  Result: (new manager, returned id, whether `start` was
called). -/
def SessionManager.createSession (m : SessionManager) (sid? : Option String)
    (genId : String) (shell? : Option String) (defaultShell : String)
    (env : SpawnOutcome) (now : Nat) :
    SessionManager × Option String × Bool :=
  let sid := resolveSid sid? genId
  match lookupD m.sessions sid with
  | some _ => (m, some sid, false)
  | none =>
    let s0 := TerminalSession.init sid shell? defaultShell now
    let r := TerminalSession.start s0 env
    if r.2.1 then
      ({ m with sessions := insertD m.sessions sid r.1
                locks := m.locks ++ [sid] }, some sid, true)
    else (m, none, true)

/-- `SessionManager.close_session`: absent id returns `False`; otherwise
`session.stop()` is called, the session and its lock entries are deleted,
and `stop`'s result is returned (in the embedding `stop` always
succeeds; environment exceptions during child termination are outside
the model). -/
def SessionManager.closeSession (m : SessionManager) (sid : String) :
    SessionManager × Bool :=
  match lookupD m.sessions sid with
  | none => (m, false)
  | some s =>
    let r := TerminalSession.stop s
    ({ m with sessions := eraseD m.sessions sid
              locks := m.locks.filter (fun k => k ≠ sid) }, r.2)

/-- Every key is bound at most once — the dict invariant. -/
def AtMostOne (m : List (String × TerminalSession)) : Prop :=
  ∀ k, countKey m k ≤ 1

/-- A key absent from the lookup has no binding at all. -/
theorem countKey_eq_zero_of_lookup_none
    (m : List (String × TerminalSession)) (k : String)
    (h : lookupD m k = none) : countKey m k = 0 := by
  induction m with
  | nil => rfl
  | cons p rest ih =>
    obtain ⟨k', v⟩ := p
    by_cases hk : k' = k
    · simp [lookupD, hk] at h
    · simp only [lookupD, if_neg hk] at h
      simpa [countKey, List.filter, hk] using ih h

/-- Appending a fresh binding preserves per-key counts elsewhere and
sets the new key's count to one more than before. -/
theorem countKey_append_single (m : List (String × TerminalSession))
    (k k' : String) (v : TerminalSession) :
    countKey (m ++ [(k, v)]) k' =
      countKey m k' + (if k = k' then 1 else 0) := by
  by_cases h : k = k' <;>
    simp [countKey, List.filter_append, List.filter, h]

/-- Looking up a key just appended to a list that did not bind it. -/
theorem lookupD_append_single_self (m : List (String × TerminalSession))
    (k : String) (v : TerminalSession) (h : lookupD m k = none) :
    lookupD (m ++ [(k, v)]) k = some v := by
  induction m with
  | nil => simp [lookupD]
  | cons p rest ih =>
    obtain ⟨k', v'⟩ := p
    by_cases hk : k' = k
    · simp [lookupD, hk] at h
    · simp only [lookupD, if_neg hk] at h ⊢
      exact ih h

/-- `insertD` on a list not binding the key is an append. -/
theorem insertD_eq_append (m : List (String × TerminalSession))
    (k : String) (v : TerminalSession) (h : lookupD m k = none) :
    insertD m k v = m ++ [(k, v)] := by
  induction m with
  | nil => rfl
  | cons p rest ih =>
    obtain ⟨k', v'⟩ := p
    by_cases hk : k' = k
    · simp [lookupD, hk] at h
    · simp only [lookupD, if_neg hk] at h
      simp [insertD, hk, ih h]

/-- Erasing a key removes every binding for it. -/
theorem lookupD_eraseD (m : List (String × TerminalSession)) (k : String) :
    lookupD (eraseD m k) k = none := by
  induction m with
  | nil => rfl
  | cons p rest ih =>
    obtain ⟨k', v'⟩ := p
    by_cases hk : k' = k
    · simpa [eraseD, List.filter, hk] using ih
    · simpa [eraseD, List.filter, hk, lookupD] using ih

/-- The embedded `TerminalSession.stop` always reports success (its only
`False` path is an environment exception, outside the model). -/
theorem stop_snd_true (s : TerminalSession) :
    (TerminalSession.stop s).2 = true := by
  unfold TerminalSession.stop
  split <;> rfl

/-- The sample PTY handed out by a successful spawn in witnesses. -/
def samplePty : PtyState := { winRows := 24, winCols := 80, alive := true }

/-- C5: `close_session(sid)` returns exactly whether `sid` was present
(`False`, not an error, on an unknown id), removes the entry, and a
second `close_session` on the same id therefore returns `False`. -/
theorem close_session_presence (m : SessionManager) (sid : String) :
    (m.closeSession sid).2 = (lookupD m.sessions sid).isSome ∧
    lookupD (m.closeSession sid).1.sessions sid = none ∧
    ((m.closeSession sid).1.closeSession sid).2 = false := by
  cases h : lookupD m.sessions sid with
  | none =>
    refine ⟨?_, ?_, ?_⟩ <;> simp [SessionManager.closeSession, h]
  | some s =>
    refine ⟨?_, ?_, ?_⟩ <;>
      simp [SessionManager.closeSession, h, stop_snd_true, lookupD_eraseD]

/-- C4: after a `create_session(id=X)` that returned `X`, a second
`create_session(id=X)` returns the same id `X`, attempts no spawn (third
component `false`), changes nothing, and the registry holds at most one
entry per id (in particular for `X`) throughout. -/
theorem create_duplicate_same_id (m : SessionManager) (X genId genId2 : String)
    (shell? shell?2 : Option String) (defSh defSh2 : String)
    (env env2 : SpawnOutcome) (now now2 : Nat)
    (hX : X ≠ "") (hInv : AtMostOne m.sessions)
    (h1 : (m.createSession (some X) genId shell? defSh env now).2.1 = some X) :
    (m.createSession (some X) genId shell? defSh env now).1.createSession
        (some X) genId2 shell?2 defSh2 env2 now2 =
      ((m.createSession (some X) genId shell? defSh env now).1, some X, false) ∧
    AtMostOne (m.createSession (some X) genId shell? defSh env now).1.sessions := by
  have hsid : resolveSid (some X) genId = X := by simp [resolveSid, hX]
  have hsid2 : resolveSid (some X) genId2 = X := by simp [resolveSid, hX]
  cases h : lookupD m.sessions X with
  | some s =>
    have hc : m.createSession (some X) genId shell? defSh env now =
        (m, some X, false) := by
      simp [SessionManager.createSession, hsid, h]
    rw [hc]
    constructor
    · simp [SessionManager.createSession, hsid2, h]
    · exact hInv
  | none =>
    cases env with
    | fail =>
      have hc : m.createSession (some X) genId shell? defSh .fail now =
          (m, none, true) := by
        simp [SessionManager.createSession, hsid, h, TerminalSession.start,
          TerminalSession.init]
      rw [hc] at h1
      simp at h1
    | ok p =>
      have hc : m.createSession (some X) genId shell? defSh (.ok p) now =
          ({ m with
              sessions := insertD m.sessions X
                ({ TerminalSession.init X shell? defSh now with
                    active := true, pty := some p })
              locks := m.locks ++ [X] }, some X, true) := by
        simp [SessionManager.createSession, hsid, h, TerminalSession.start,
          TerminalSession.init]
      rw [hc]
      have happ := insertD_eq_append m.sessions X
        ({ TerminalSession.init X shell? defSh now with
            active := true, pty := some p }) h
      constructor
      · have hl := lookupD_append_single_self m.sessions X
          ({ TerminalSession.init X shell? defSh now with
              active := true, pty := some p }) h
        simp [SessionManager.createSession, hsid2, happ, hl]
      · intro k
        have hcnt := countKey_append_single m.sessions X k
          ({ TerminalSession.init X shell? defSh now with
              active := true, pty := some p })
        simp only [happ, hcnt]
        by_cases hk : X = k
        · subst hk
          have := countKey_eq_zero_of_lookup_none m.sessions X h
          simp [this]
        · simpa [hk] using hInv k

/-- C4 witness: fresh manager, create "abc" twice (first spawn
succeeds). -/
theorem create_duplicate_same_id_witness :
    ("abc" : String) ≠ "" ∧ AtMostOne SessionManager.init.sessions ∧
    (SessionManager.init.createSession (some "abc") "g" none "/bin/sh"
        (.ok samplePty) 0).2.1 = some "abc" ∧
    ((SessionManager.init.createSession (some "abc") "g" none "/bin/sh"
        (.ok samplePty) 0).1.createSession (some "abc") "g2" none "/bin/sh"
        (.ok samplePty) 1 =
      ((SessionManager.init.createSession (some "abc") "g" none "/bin/sh"
          (.ok samplePty) 0).1, some "abc", false) ∧
     AtMostOne (SessionManager.init.createSession (some "abc") "g" none
        "/bin/sh" (.ok samplePty) 0).1.sessions) :=
  ⟨by decide, fun k => by simp [SessionManager.init, countKey], rfl,
    create_duplicate_same_id SessionManager.init "abc" "g" "g2" none none
      "/bin/sh" "/bin/sh" (.ok samplePty) (.ok samplePty) 0 1 (by decide)
      (fun k => by simp [SessionManager.init, countKey]) rfl⟩

/-- C6: a `create_session` whose `TerminalSession.start` fails returns
`None` and leaves the manager — sessions dict and locks dict alike —
exactly as it was. -/
theorem create_fail_unchanged (m : SessionManager) (sid? : Option String)
    (genId : String) (shell? : Option String) (defSh : String) (now : Nat)
    (h : lookupD m.sessions (resolveSid sid? genId) = none) :
    m.createSession sid? genId shell? defSh .fail now = (m, none, true) := by
  simp [SessionManager.createSession, h, TerminalSession.start,
    TerminalSession.init]

/-- C6 witness: failed create of "abc" on a fresh manager. -/
theorem create_fail_unchanged_witness :
    lookupD SessionManager.init.sessions (resolveSid (some "abc") "g") = none ∧
    SessionManager.init.createSession (some "abc") "g" none "/bin/sh" .fail 0 =
      (SessionManager.init, none, true) :=
  ⟨rfl, create_fail_unchanged SessionManager.init (some "abc") "g" none
    "/bin/sh" 0 rfl⟩

/-- Python's `l[-k:]` is Mathlib's `List.rtake l k = l.drop (l.length -
k)`.  This lemma: a list no longer than `k` is kept whole. -/
theorem rtake_of_length_le {α : Type*} (l : List α) (k : Nat)
    (h : l.length ≤ k) : l.rtake k = l := by
  simp [List.rtake, Nat.sub_eq_zero_of_le h]

/-- Length of the kept tail. -/
theorem length_rtake {α : Type*} (l : List α) (k : Nat) :
    (l.rtake k).length = min k l.length := by
  simp only [List.rtake, List.length_drop]
  omega

/-- Dropping the head does not change a tail-slice that fits in the
tail. -/
theorem rtake_cons_of_le {α : Type*} (a : α) (l : List α) (k : Nat)
    (h : k ≤ l.length) : (a :: l).rtake k = l.rtake k := by
  simp only [List.rtake, List.length_cons]
  rw [show l.length + 1 - k = (l.length - k) + 1 by omega,
    List.drop_succ_cons]

/-- Re-slicing an already-sliced tail before an append equals slicing
once at the end: the algebraic heart of all the front-truncated rolling
buffers in the source. -/
theorem rtake_rtake_append {α : Type*} (x d : List α) (k : Nat) :
    (x.rtake k ++ d).rtake k = (x ++ d).rtake k := by
  simp only [List.rtake_eq_reverse_take_reverse, List.reverse_append,
    List.reverse_reverse]
  rw [List.take_append_eq_append_take, List.take_append_eq_append_take,
    List.take_take, Nat.min_eq_left (Nat.sub_le _ _)]

/-- One message of an LLM conversation context — a
`{"role": ..., "content": ...}` dict of `llm_adapter.py`. -/
structure Message where
  role : String
  content : String
deriving DecidableEq, Repr

/-- The default system prompt from `LLMAdapter.__init__`. -/
def defaultSystemPrompt : String :=
  "You are a terminal assistant that helps users with command-line tasks. Provide concise explanations and suggestions for terminal commands. Focus on being helpful, accurate, and security-conscious."

/-- `LLMAdapter.add_message`: append the message, then — comment in the
source: "Keep context at a reasonable size (last 10 messages)" — if the
context now exceeds 11 entries, keep `[context[0]] + context[-10:]`:
the leading system message plus the last TEN MESSAGES (not ten
user/assistant turn pairs). -/
def addMessage (c : List Message) (m : Message) : List Message :=
  let c2 := c ++ [m]
  if 11 < c2.length then
    match c2 with
    | [] => c2
    | h :: _ => h :: c2.rtake 10
  else c2

/-- Folding `add_message` over any message sequence starting from a
one-element context yields the head plus the last ten messages. -/
theorem foldl_addMessage_rtake (h : Message) (ms : List Message) :
    ∀ acc : List Message,
      List.foldl addMessage (h :: acc.rtake 10) ms =
        h :: (acc ++ ms).rtake 10 := by
  induction ms with
  | nil => intro acc; simp
  | cons m ms ih =>
    intro acc
    have step : addMessage (h :: acc.rtake 10) m =
        h :: (acc ++ [m]).rtake 10 := by
      by_cases hlen : 10 ≤ acc.length
      · have hr : (acc.rtake 10).length = 10 := by
          rw [length_rtake]; omega
        have hcons : (h :: acc.rtake 10) ++ [m] =
            h :: (acc.rtake 10 ++ [m]) := by simp
        have hgt : 11 < ((h :: acc.rtake 10) ++ [m]).length := by
          simp [hr]
        unfold addMessage
        rw [if_pos hgt, hcons]
        have ht : 10 ≤ (acc.rtake 10 ++ [m]).length := by
          simp [hr]
        rw [rtake_cons_of_le _ _ _ ht, rtake_rtake_append]
      · have hacc : acc.rtake 10 = acc :=
          rtake_of_length_le acc 10 (by omega)
        have hle : ¬ 11 < ((h :: acc.rtake 10) ++ [m]).length := by
          simp [hacc]
          omega
        unfold addMessage
        rw [if_neg hle, hacc,
          rtake_of_length_le (acc ++ [m]) 10 (by simp; omega)]
        simp
    rw [List.foldl_cons, step, ih (acc ++ [m])]
    simp

/-- The two `analyze_*` entry points of the adapter, with the response
the LLM backend returned (`none` models an exception path). -/
inductive AnalyzeEvent where
  | cmd (command : String) (response : Option String)
  | out (command : String) (output : String) (response : Option String)
deriving DecidableEq, Repr

/-- `if response: self.add_message(..., role="assistant")` — the reply
is stored only when truthy (non-None and non-empty). -/
def responseMessages (r : Option String) : List Message :=
  match r with
  | none => []
  | some s => if s = "" then [] else [{ role := "assistant", content := s }]

/-- The user prompt built by `analyze_command`. -/
def commandPrompt (cmd : String) : String :=
  "Please explain this command concisely: " ++ cmd

/-- `analyze_output`'s trimming of long outputs: over 4000 characters,
keep the first and last 2000 joined by the truncation marker. -/
def truncateOutput (out : String) : String :=
  if 4000 < out.length then
    out.take 2000 ++ "...[output truncated]..." ++ out.drop (out.length - 2000)
  else out

/-- The user prompt built by `analyze_output`. -/
def outputPrompt (cmd out : String) : String :=
  "Please explain the output of this command: " ++ cmd ++ "\n\nOutput:\n" ++
    truncateOutput out

/-- Messages appended to the session context by one analyze call. -/
def eventMessages : AnalyzeEvent → List Message
  | .cmd c r => { role := "user", content := commandPrompt c } ::
      responseMessages r
  | .out c o r => { role := "user", content := outputPrompt c o } ::
      responseMessages r

/-- A sequence of `analyze_command`/`analyze_output` calls acting on a
session's stored context. -/
def runAnalyze (ctx : List Message) (es : List AnalyzeEvent) : List Message :=
  es.foldl (fun c e => (eventMessages e).foldl addMessage c) ctx

/-- Running analyze events is folding `add_message` over the flattened
message sequence. -/
theorem runAnalyze_eq_foldl (ctx : List Message) (es : List AnalyzeEvent) :
    runAnalyze ctx es = List.foldl addMessage ctx (es.flatMap eventMessages) := by
  induction es generalizing ctx with
  | nil => rfl
  | cons e es ih =>
    simp only [runAnalyze, List.foldl_cons, List.flatMap_cons,
      List.foldl_append]
    exact ih _

/-- C3 (amended): after any sequence of `analyze_command` /
`analyze_output` calls, the stored context is exactly the leading system
message plus the last TEN MESSAGES appended (five user/assistant turns
when every call got a reply) — in particular it never exceeds 11
entries.  (The claim's "ten (user, assistant) turns" — twenty messages —
is what fails; the code caps at ten messages.) -/
theorem context_cap_amended (sysPrompt : String) (es : List AnalyzeEvent) :
    runAnalyze [{ role := "system", content := sysPrompt }] es =
      { role := "system", content := sysPrompt } ::
        (es.flatMap eventMessages).rtake 10 ∧
    (runAnalyze [{ role := "system", content := sysPrompt }] es).length ≤ 11 := by
  have h := foldl_addMessage_rtake { role := "system", content := sysPrompt }
    (es.flatMap eventMessages) []
  simp only [List.rtake_nil, List.nil_append] at h
  rw [runAnalyze_eq_foldl, h]
  refine ⟨rfl, ?_⟩
  simp only [List.length_cons, length_rtake]
  omega

/-- Twelve user turns, each answered by the assistant. -/
def twelveCmdTurns : List AnalyzeEvent :=
  (List.range 12).map
    (fun i => .cmd (Nat.repr i) (some ("reply " ++ Nat.repr i)))

/-- C3 counterexample: after 12 user turns each with an assistant reply
the stored context holds 1 system + 10 messages = 11 entries, not the
1 + 10·2 = 21 entries the claim's "1 system message plus the 10
most-recent turns" asserts. -/
theorem context_cap_counterexample :
    (runAnalyze [{ role := "system", content := defaultSystemPrompt }]
        twelveCmdTurns).length = 11 ∧
    ¬ (runAnalyze [{ role := "system", content := defaultSystemPrompt }]
        twelveCmdTurns).length = 21 := by
  constructor
  · decide
  · decide

/-- Shallow embedding of `TerminalWebSocketHandler` together with the
output-callback list of the terminal it serves: `websockets` is the
Python set of connections (kept duplicate-free), `output_buffer` the
rolling backlog, `callbacks` the identities of the lambda objects
registered with the terminal, and `nextCb` a counter consumed whenever
the source evaluates a `lambda` expression — each evaluation creates a
new object with a fresh identity. -/
structure HandlerState where
  websockets : List Nat
  outputBuffer : List Nat
  callbacks : List Nat
  nextCb : Nat
deriving DecidableEq, Repr

/-- A handler for a session nobody has connected to yet. -/
def HandlerState.empty : HandlerState :=
  { websockets := [], outputBuffer := [], callbacks := [], nextCb := 0 }

/-- The buffer update of `_handle_terminal_output`: append the chunk,
then if the buffer exceeds 50 000 characters keep
`self.output_buffer[-50000:]`. -/
def pubBuf (buf data : List Nat) : List Nat :=
  let b2 := buf ++ data
  if 50000 < b2.length then b2.rtake 50000 else b2

/-- `_handle_terminal_output`: update the rolling buffer and send the
new chunk (via `_send_output`) to every currently attached websocket.
Each delivery is recorded as a `(websocket, data)` event. -/
def HandlerState.handleTerminalOutput (st : HandlerState) (d : List Nat) :
    HandlerState × List (Nat × List Nat) :=
  ({ st with outputBuffer := pubBuf st.outputBuffer d },
    st.websockets.map (fun w => (w, d)))

/-- `self.websockets.add(websocket)`: set insertion. -/
def HandlerState.addWs (st : HandlerState) (w : Nat) : List Nat :=
  if w ∈ st.websockets then st.websockets else st.websockets ++ [w]

/-- `add_websocket`: add the connection to the set, register a freshly
created callback lambda with the terminal (an unconditional append in
`register_output_callback`), and — if the buffer is non-empty — send the
current backlog via `_send_output`, i.e. to every attached websocket,
the new one included. -/
def HandlerState.addWebsocket (st : HandlerState) (w : Nat) :
    HandlerState × List (Nat × List Nat) :=
  ({ st with websockets := st.addWs w
             callbacks := st.callbacks ++ [st.nextCb]
             nextCb := st.nextCb + 1 },
    if st.outputBuffer = [] then []
    else (st.addWs w).map (fun x => (x, st.outputBuffer)))

/-- `remove_websocket`: discard the connection from the set; when the
set becomes empty, call `unregister_output_callback` passing a freshly
created lambda — a new object, whose identity the membership test
inside `unregister_output_callback` compares against the previously
registered callbacks. -/
def HandlerState.removeWebsocket (st : HandlerState) (w : Nat) : HandlerState :=
  let wss := if w ∈ st.websockets then st.websockets.erase w else st.websockets
  if wss = [] then
    { st with websockets := wss
              callbacks :=
                if st.nextCb ∈ st.callbacks then st.callbacks.erase st.nextCb
                else st.callbacks
              nextCb := st.nextCb + 1 }
  else { st with websockets := wss }

/-- The pump's fan-out (`_read_loop`): `for callback in
self.output_callbacks: callback(data)` — every registered callback is
the handler's `_handle_terminal_output` applied to the chunk. -/
def HandlerState.terminalPublish (st : HandlerState) (d : List Nat) :
    HandlerState × List (Nat × List Nat) :=
  st.callbacks.foldl
    (fun acc _ =>
      ((acc.1.handleTerminalOutput d).1,
        acc.2 ++ (acc.1.handleTerminalOutput d).2))
    (st, [])

/-- C2 (code evidence): connect one websocket, then disconnect it.  The
source's own comment says the output callback is then unregistered; in
fact `remove_websocket` passes a NEW lambda to
`unregister_output_callback`, the identity membership test fails, the
original callback (identity 0) stays registered, and a subsequent
publish still invokes it — the backlog keeps filling with nobody
attached. -/
theorem unsubscribe_callback_stays_registered :
    ((HandlerState.empty.addWebsocket 7).1.removeWebsocket 7).websockets = [] ∧
    ((HandlerState.empty.addWebsocket 7).1.removeWebsocket 7).callbacks = [0] ∧
    ((((HandlerState.empty.addWebsocket 7).1.removeWebsocket
        7).terminalPublish [65]).1).outputBuffer = [65] :=
  ⟨rfl, rfl, rfl⟩

/-- Attach a callback with each `add_websocket` call of `L`, starting
from a fresh handler. -/
def applyAdds (L : List Nat) : HandlerState :=
  L.foldl (fun st w => (st.addWebsocket w).1) HandlerState.empty

/-- Number of deliveries of chunk `d` to client `w` in an event list. -/
def sendsTo (evs : List (Nat × List Nat)) (w : Nat) (d : List Nat) : Nat :=
  (evs.filter (fun e => e = (w, d))).length

/-- Each `add_websocket` call grows the terminal's callback list by
exactly one. -/
theorem foldl_addWebsocket_callbacks_length (L : List Nat) :
    ∀ st : HandlerState,
      (List.foldl (fun st w => (st.addWebsocket w).1) st L).callbacks.length =
        st.callbacks.length + L.length := by
  induction L with
  | nil => intro st; simp
  | cons a t ih =>
    intro st
    have hstep : (st.addWebsocket a).1.callbacks.length =
        st.callbacks.length + 1 := by
      simp [HandlerState.addWebsocket]
    rw [List.foldl_cons, ih, hstep, List.length_cons]
    omega

/-- The websocket set stays duplicate-free under `add_websocket`. -/
theorem foldl_addWebsocket_websockets_nodup (L : List Nat) :
    ∀ st : HandlerState, st.websockets.Nodup →
      (List.foldl (fun st w => (st.addWebsocket w).1) st L).websockets.Nodup := by
  induction L with
  | nil => intro st h; simpa using h
  | cons a t ih =>
    intro st h
    rw [List.foldl_cons]
    apply ih
    by_cases hm : a ∈ st.websockets
    · simpa [HandlerState.addWebsocket, HandlerState.addWs, hm] using h
    · simp [HandlerState.addWebsocket, HandlerState.addWs, hm,
        List.nodup_append, h]

/-- A publish delivers, for each registered callback in turn, the chunk
to every attached websocket. -/
theorem terminalPublish_events (d : List Nat) (cbs : List Nat) :
    ∀ p : HandlerState × List (Nat × List Nat),
      (cbs.foldl (fun acc _ =>
        ((acc.1.handleTerminalOutput d).1,
          acc.2 ++ (acc.1.handleTerminalOutput d).2)) p).2 =
      p.2 ++ (List.replicate cbs.length
        (p.1.websockets.map (fun w => (w, d)))).flatten := by
  induction cbs with
  | nil => intro p; simp
  | cons c t ih =>
    intro p
    rw [List.foldl_cons, ih]
    simp [HandlerState.handleTerminalOutput, List.replicate_succ]

/-- Delivery counting distributes over event concatenation. -/
theorem sendsTo_append (a b : List (Nat × List Nat)) (w : Nat)
    (d : List Nat) :
    sendsTo (a ++ b) w d = sendsTo a w d + sendsTo b w d := by
  simp [sendsTo, List.filter_append]

/-- Delivery counting on a cons cell. -/
theorem sendsTo_cons (e : Nat × List Nat) (evs : List (Nat × List Nat))
    (w : Nat) (d : List Nat) :
    sendsTo (e :: evs) w d =
      (if e = (w, d) then 1 else 0) + sendsTo evs w d := by
  by_cases he : e = (w, d)
  · simp [sendsTo, List.filter_cons, he]
    omega
  · simp [sendsTo, List.filter_cons, he]

/-- One `_send_output` round over a duplicate-free websocket set
delivers the chunk exactly once to each attached client. -/
theorem sendsTo_map_self (ws : List Nat) (w : Nat) (d : List Nat)
    (h : ws.Nodup) :
    sendsTo (ws.map (fun x => (x, d))) w d = if w ∈ ws then 1 else 0 := by
  induction ws with
  | nil => simp [sendsTo]
  | cons a t ih =>
    rcases List.nodup_cons.mp h with ⟨ha, ht⟩
    rw [List.map_cons, sendsTo_cons, ih ht]
    by_cases haw : a = w
    · subst haw
      simp [ha]
    · simp [haw, Ne.symm haw]

/-- Delivery counting over repeated rounds. -/
theorem sendsTo_replicate_join (n : Nat) (x : List (Nat × List Nat))
    (w : Nat) (d : List Nat) :
    sendsTo (List.replicate n x).flatten w d = n * sendsTo x w d := by
  induction n with
  | zero => simp [sendsTo]
  | succ n ih =>
    rw [List.replicate_succ, List.flatten_cons, sendsTo_append, ih,
      Nat.succ_mul]
    omega

/-- C9: after `L.length` calls to `add_websocket`, the terminal's
callback list has length `L.length` (one entry per call, regardless of
how many distinct websockets are attached), and a single published
chunk is delivered `L.length` times to every attached client (and never
to anyone else). -/
theorem fanout_duplication (L : List Nat) (w : Nat) (d : List Nat) :
    (applyAdds L).callbacks.length = L.length ∧
    sendsTo ((applyAdds L).terminalPublish d).2 w d =
      if w ∈ (applyAdds L).websockets then L.length else 0 := by
  have hlen : (applyAdds L).callbacks.length = L.length := by
    have h := foldl_addWebsocket_callbacks_length L HandlerState.empty
    simpa [applyAdds, HandlerState.empty] using h
  have hnd : (applyAdds L).websockets.Nodup := by
    have h := foldl_addWebsocket_websockets_nodup L HandlerState.empty
      (by simp [HandlerState.empty])
    simpa [applyAdds] using h
  refine ⟨hlen, ?_⟩
  unfold HandlerState.terminalPublish
  rw [terminalPublish_events d (applyAdds L).callbacks (applyAdds L, [])]
  simp only [List.nil_append]
  rw [sendsTo_replicate_join, sendsTo_map_self _ _ _ hnd, hlen]
  by_cases hm : w ∈ (applyAdds L).websockets <;> simp [hm]

/-- Run a sequence of PTY chunks through the terminal fan-out
(`_read_loop` publishing each read to the registered callbacks). -/
def publishSeq (st : HandlerState) (chunks : List (List Nat)) : HandlerState :=
  chunks.foldl (fun s c => (s.terminalPublish c).1) st

/-- The buffer update is always the tail slice of the appended buffer
(when nothing overflows the slice keeps everything). -/
theorem pubBuf_eq_rtake (b d : List Nat) :
    pubBuf b d = (b ++ d).rtake 50000 := by
  show (if 50000 < (b ++ d).length then (b ++ d).rtake 50000 else b ++ d) =
    (b ++ d).rtake 50000
  by_cases h : 50000 < (b ++ d).length
  · rw [if_pos h]
  · rw [if_neg h, rtake_of_length_le (b ++ d) 50000 (by omega)]

/-- With a single registered callback, one publish performs exactly one
`_handle_terminal_output` step. -/
theorem terminalPublish_single (st : HandlerState) (c : List Nat) (cb : Nat)
    (h : st.callbacks = [cb]) :
    (st.terminalPublish c).1 =
      { st with outputBuffer := pubBuf st.outputBuffer c } := by
  unfold HandlerState.terminalPublish
  rw [h]
  simp [HandlerState.handleTerminalOutput, h]

/-- With a single registered callback, a chunk sequence folds the buffer
update and touches nothing else. -/
theorem publishSeq_single (chunks : List (List Nat)) :
    ∀ (st : HandlerState) (cb : Nat), st.callbacks = [cb] →
      publishSeq st chunks =
        { st with outputBuffer := chunks.foldl pubBuf st.outputBuffer } := by
  induction chunks with
  | nil => intro st cb h; simp [publishSeq]
  | cons c t ih =>
    intro st cb h
    unfold publishSeq
    rw [List.foldl_cons, terminalPublish_single st c cb h]
    have h2 := ih { st with outputBuffer := pubBuf st.outputBuffer c } cb h
    unfold publishSeq at h2
    rw [h2]
    simp

/-- `pubBuf` is the front-truncating slice operation, as a function. -/
theorem pubBuf_funext : pubBuf = fun b d => (b ++ d).rtake 50000 :=
  funext fun b => funext fun d => pubBuf_eq_rtake b d

/-- Folding a front-truncating slice over a chunk sequence yields the
tail slice of the full concatenation (stated for an arbitrary cap). -/
theorem foldl_slice {α : Type*} (k : Nat) (chunks : List (List α)) :
    ∀ x : List α,
      chunks.foldl (fun b d => (b ++ d).rtake k) (x.rtake k) =
        (x ++ chunks.flatten).rtake k := by
  induction chunks with
  | nil =>
    intro x
    rw [List.foldl_nil, List.flatten_nil, List.append_nil]
  | cons c t ih =>
    intro x
    rw [List.foldl_cons]
    show List.foldl (fun b d => (b ++ d).rtake k) ((x.rtake k ++ c).rtake k) t =
      (x ++ (c :: t).flatten).rtake k
    rw [rtake_rtake_append, ih (x ++ c), List.flatten_cons,
      List.append_assoc]

/-- The websocket set after an `add_websocket` call. -/
theorem addWebsocket_fst_websockets (st : HandlerState) (w : Nat) :
    (st.addWebsocket w).1.websockets = st.addWs w := rfl

/-- With a non-empty backlog, `add_websocket` primes every attached
websocket with the current buffer. -/
theorem addWebsocket_snd_of_ne (st : HandlerState) (w : Nat)
    (h : st.outputBuffer ≠ []) :
    (st.addWebsocket w).2 =
      (st.addWs w).map (fun x => (x, st.outputBuffer)) := by
  simp only [HandlerState.addWebsocket, if_neg h]

/-- The added websocket is in the updated set. -/
theorem mem_addWs (st : HandlerState) (w : Nat) : w ∈ st.addWs w := by
  unfold HandlerState.addWs
  by_cases hm : w ∈ st.websockets
  · rw [if_pos hm]; exact hm
  · rw [if_neg hm]; simp

/-- C7: the backlog never exceeds 50 000 characters after a publish
(first conjunct, for every buffer state and chunk), and a websocket
attached after 60 000 characters of output — one subscriber having been
attached while it flowed — is primed at attach time, before any new
bytes, with exactly the last 50 000 characters of that output: the
prime carries `(chunks.flatten).rtake 50000`, of length exactly 50 000,
to the attached websockets, the new one included. -/
theorem backlog_bound_and_prime (chunks : List (List Nat)) (w0 w1 : Nat)
    (h : (chunks.flatten).length = 60000) :
    (∀ b d : List Nat, (pubBuf b d).length ≤ 50000) ∧
    (publishSeq (HandlerState.empty.addWebsocket w0).1 chunks).outputBuffer =
      (chunks.flatten).rtake 50000 ∧
    ((chunks.flatten).rtake 50000).length = 50000 ∧
    ((publishSeq (HandlerState.empty.addWebsocket w0).1 chunks).addWebsocket
        w1).2 =
      ((publishSeq (HandlerState.empty.addWebsocket w0).1
          chunks).addWebsocket w1).1.websockets.map
        (fun x => (x, (chunks.flatten).rtake 50000)) ∧
    w1 ∈ ((publishSeq (HandlerState.empty.addWebsocket w0).1
        chunks).addWebsocket w1).1.websockets := by
  have hbound : ∀ b d : List Nat, (pubBuf b d).length ≤ 50000 := by
    intro b d
    rw [pubBuf_eq_rtake, length_rtake]
    omega
  have hcb : (HandlerState.empty.addWebsocket w0).1.callbacks = [0] := rfl
  have hbuf :
      (publishSeq (HandlerState.empty.addWebsocket w0).1 chunks).outputBuffer =
        (chunks.flatten).rtake 50000 := by
    rw [publishSeq_single chunks _ 0 hcb]
    show chunks.foldl pubBuf [] = (chunks.flatten).rtake 50000
    rw [pubBuf_funext]
    have h2 := foldl_slice 50000 chunks []
    rw [List.rtake_nil, List.nil_append] at h2
    exact h2
  have hlen : ((chunks.flatten).rtake 50000).length = 50000 := by
    rw [length_rtake, h]
    omega
  have hne :
      (publishSeq (HandlerState.empty.addWebsocket w0).1
        chunks).outputBuffer ≠ [] := by
    rw [hbuf]
    intro hnil
    rw [hnil] at hlen
    simp at hlen
  refine ⟨hbound, hbuf, hlen, ?_, ?_⟩
  · rw [addWebsocket_snd_of_ne _ _ hne, addWebsocket_fst_websockets, hbuf]
  · rw [addWebsocket_fst_websockets]
    exact mem_addWs _ _

/-- C7 witness: a single 60 000-character chunk of capital-A bytes. -/
theorem backlog_bound_and_prime_witness :
    (([List.replicate 60000 65] : List (List Nat)).flatten).length = 60000 ∧
    ((∀ b d : List Nat, (pubBuf b d).length ≤ 50000) ∧
     (publishSeq (HandlerState.empty.addWebsocket 0).1
        [List.replicate 60000 65]).outputBuffer =
       (([List.replicate 60000 65] : List (List Nat)).flatten).rtake 50000 ∧
     ((([List.replicate 60000 65] : List (List Nat)).flatten).rtake
        50000).length = 50000 ∧
     ((publishSeq (HandlerState.empty.addWebsocket 0).1
          [List.replicate 60000 65]).addWebsocket 1).2 =
       ((publishSeq (HandlerState.empty.addWebsocket 0).1
           [List.replicate 60000 65]).addWebsocket 1).1.websockets.map
         (fun x => (x,
           (([List.replicate 60000 65] : List (List Nat)).flatten).rtake
             50000)) ∧
     1 ∈ ((publishSeq (HandlerState.empty.addWebsocket 0).1
         [List.replicate 60000 65]).addWebsocket 1).1.websockets) :=
  ⟨by rw [List.flatten_cons, List.flatten_nil, List.append_nil,
      List.length_replicate],
   backlog_bound_and_prime [List.replicate 60000 65] 0 1
     (by rw [List.flatten_cons, List.flatten_nil, List.append_nil,
       List.length_replicate])⟩

end Terma
